import Mathlib

/-!
# Verification of the ENA taxonomy-request pipeline

A shallow embedding of `ena_taxonomy_request.py`: the hierarchical
name-proposal fallback (`format_taxonomic_name`), name-type classification
(`determine_name_type`), and the GBIF lookup / rank-validation /
acceptance-mask / description-merge loop (`resolve_names_and_update_file`).

Python strings are modelled as Lean `String`s; missing (`NaN`) cells are
`Option String` with `none`, and Python `str(...)` of a missing cell yields
the literal `"nan"`.  The external GBIF service (`species.name_backbone`)
is an oracle parameter `LookupFn`; a raised exception is `Except.error`.
-/

namespace EnaTax

/-! ## Python string primitives -/

/-- Whitespace test used by Python `str.strip` / `str.split`. -/
def isWS (c : Char) : Bool := c.isWhitespace

/-- Python `str.strip()` on the underlying character list: drop whitespace
from both ends. -/
def pyStripL (l : List Char) : List Char :=
  ((l.dropWhile isWS).reverse.dropWhile isWS).reverse

/-- Python `str.strip()`. -/
def pyStrip (s : String) : String := String.mk (pyStripL s.data)

/-- Python `str.lower()`. -/
def pyLower (s : String) : String := String.mk (s.data.map Char.toLower)

/-- Python substring containment `sub in s` (for the nonempty separators
used by the script). -/
def containsL (sub : List Char) : List Char → Bool
  | [] => sub.isEmpty
  | c :: rest => sub.isPrefixOf (c :: rest) || containsL sub rest

/-- Python `sub in s`. -/
def pyContains (sub s : String) : Bool := containsL sub.data s.data

/-- Helper for Python `str.split()` (no argument): count maximal runs of
non-whitespace characters. -/
def countWordsAux : List Char → Bool → Nat
  | [], _ => 0
  | c :: rest, inWord =>
    if isWS c then countWordsAux rest false
    else (if inWord then 0 else 1) + countWordsAux rest true

/-- `len(s.split())` in Python: number of whitespace-separated tokens. -/
def pyWordCount (s : String) : Nat := countWordsAux s.data false

/-- Characters of `s` before the first occurrence of `sub`
(`s.split(sub)[0]` in Python, the whole string when `sub` is absent). -/
def takeUntilSubL (sub : List Char) : List Char → List Char
  | [] => []
  | c :: rest => if sub.isPrefixOf (c :: rest) then [] else c :: takeUntilSubL sub rest

/-- Python `s.split(sub)[0]`. -/
def pySplitFirst (sub s : String) : String := String.mk (takeUntilSubL sub.data s.data)

/-- `re.search` of the pattern `sp.` as pandas `str.contains('sp.')` runs it
(default `regex=True`): the literal characters `s`, `p` followed by any
single non-newline character. -/
def spRegexL : List Char → Bool
  | [] => false
  | c :: rest =>
    (c == 's' &&
      match rest with
      | p :: d :: _ => p == 'p' && d != '\n'
      | _ => false) ||
    spRegexL rest

/-- `str(x)` of a possibly-missing (`NaN`) pandas cell: missing cells
stringify to the literal `"nan"`. -/
def pyStr : Option String → String
  | none => "nan"
  | some s => s

/-! ## Data model -/

/-- One row of the original metadata dataframe (`original_df`): the columns
the script reads.  Free-text taxonomic fields may be missing (`NaN`). -/
structure SpecimenRecord where
  process_id : String
  species : Option String := none
  genus : Option String := none
  family : Option String := none
  order : Option String := none
  class_ : Option String := none
  phylum : Option String := none
  taxid : Option String := none
  matched_rank : Option String := none
deriving DecidableEq, Repr

/-! ## Name proposal (`format_taxonomic_name`, lines 59-103) -/

/-- `format_taxonomic_name(row, logger)`: hierarchical fallback
species, then genus, then family, then the literal `not collected`.
Each field is `str(...)`-ified and stripped; validity means the lowercased
value differs from the sentinel `not collected` and is nonempty. -/
def format_taxonomic_name (row : SpecimenRecord) : String :=
  let species := pyStrip (pyStr row.species)
  let genus := pyStrip (pyStr row.genus)
  let family := pyStrip (pyStr row.family)
  let process_id := pyStrip row.process_id
  if pyLower species != "not collected" && species != "" then
    species
  else if pyLower genus != "not collected" && genus != "" then
    genus ++ " sp. " ++ process_id
  else if pyLower family != "not collected" && family != "" then
    family ++ " sp. " ++ process_id
  else
    "not collected"

/-! ## Name-type classification (`determine_name_type`, lines 105-137) -/

/-- `determine_name_type(name, original_name)`: `not_collected` when the
stripped text lower-equals the sentinel, `novel_species` when it contains
`sp.` or when the original species field was the sentinel while the text
differs, otherwise `published_name` for two or more whitespace-separated
tokens, and the empty string for fewer. -/
def determine_name_type (name0 original0 : String) : String :=
  let name := pyStrip name0
  let original_name := pyLower (pyStrip original0)
  if pyLower name == "not collected" then "not_collected"
  else if pyContains "sp." name then "novel_species"
  else if original_name == "not collected" && name != original_name then "novel_species"
  else if 2 ≤ pyWordCount name then "published_name"
  else ""

/-! ## Backbone lookup client (`resolve_names_and_update_file`, lines 270-410) -/

/-- The keyword arguments the script passes to `species.name_backbone`:
`{'name': ...}` or `{'name': ..., 'rank': 'GENUS'}`. -/
structure Query where
  name : String
  rank : Option String := none
deriving DecidableEq, Repr

/-- The fields of a `species.name_backbone` response dictionary that the
script consumes (`result.get(...)` / dataframe columns); every one may be
absent.  GBIF keys are rendered by `int(...)` and are nonnegative. -/
structure GbifResult where
  scientificName : Option String := none
  status : Option String := none
  confidence : Option Int := none
  matchType : Option String := none
  rank : Option String := none
  order : Option String := none
  class_ : Option String := none
  usageKey : Option Nat := none
  genusKey : Option Nat := none
  speciesKey : Option Nat := none
deriving DecidableEq, Repr

/-- The external GBIF service as an oracle; `Except.error` models a raised
exception (transport/service failure). -/
def LookupFn : Type := Query → Except String GbifResult

/-- One row of the temporary request table together with the per-row data
the loop body reads: the positional `index`, `process_ids.iloc[index]` and
the matching `original_df` row (lines 294-300). -/
structure InputRow where
  index : Nat
  proposed_name : String
  name_type : String
  process_id : String
  orig : SpecimenRecord
deriving DecidableEq, Repr

/-- One entry of the `results` list (a dictionary in the script, one row of
`result_df`); absent dictionary keys / `NaN` cells are `none`. -/
structure ResultEntry where
  index : Nat
  process_id : String
  proposed_name : String
  scientificName : Option String := none
  status : Option String := none
  confidence : Option Int := none
  matchType : Option String := none
  rank : Option String := none
  order : Option String := none
  class_ : Option String := none
  usageKey : Option Nat := none
  genusKey : Option Nat := none
  error : Option String := none
deriving DecidableEq, Repr

/-- Lines 326-338: a name containing `sp.` queries at genus rank with the
text before `sp.` (stripped); otherwise the full text is queried with no
explicit rank. -/
def buildQuery (name : String) : Query :=
  if pyContains "sp." name then
    { name := pyStrip (pySplitFirst "sp." name), rank := some "GENUS" }
  else
    { name := name }

/-- Lines 311-324: the synthesized result for a `not_collected` entry
(no GBIF call): confidence 100, status `NOT_COLLECTED`, class `NA`,
matchType `NONE`. -/
def notCollectedEntry (r : InputRow) : ResultEntry :=
  { index := r.index, process_id := r.process_id, proposed_name := r.proposed_name,
    confidence := some 100, status := some "NOT_COLLECTED",
    class_ := some "NA", matchType := some "NONE" }

/-- Lines 400-410: the error dictionary `{"Error": str(e), **name_info,
"index": ..., "process_id": ..., "proposed_name": ...}`.  Note that
`**name_info` echoes the query's `rank` key (so a failed genus-level query
populates the `rank` column with `GENUS`); no match field is present. -/
def errorEntry (r : InputRow) (q : Query) (msg : String) : ResultEntry :=
  { index := r.index, process_id := r.process_id, proposed_name := r.proposed_name,
    rank := q.rank, error := some msg }

/-- Lines 394-398: a successful, rank-validated lookup result extended with
`index`, `process_id` and `proposed_name`. -/
def successEntry (r : InputRow) (g : GbifResult) : ResultEntry :=
  { index := r.index, process_id := r.process_id, proposed_name := r.proposed_name,
    scientificName := g.scientificName, status := g.status, confidence := g.confidence,
    matchType := g.matchType, rank := g.rank, order := g.order, class_ := g.class_,
    usageKey := g.usageKey, genusKey := g.genusKey }

/-- Python `cell == literal` on a possibly-missing cell: `NaN` compares
unequal to every string. -/
def optEqStr : Option String → String → Bool
  | some a, b => a == b
  | none, _ => false

/-- Lines 358-373: the taxonomic rank cross-validation.  `none` means
valid; `some reason` is the recorded failure reason.  Run on every record
whose lookup succeeded, before any acceptance rule. -/
def rankCheck (orig : SpecimenRecord) (g : GbifResult) : Option String :=
  match g.order, g.class_ with
  | some go, some gc =>
    if optEqStr orig.order go then none
    else if optEqStr orig.class_ gc then none
    else some "No match at order or class level"
  | _, _ => some "Missing taxonomic ranks in GBIF data"

/-- Where the loop body (lines 294-410) sends one row: into the `results`
list, or into `tax_validation_fails`. -/
inductive RowOutcome where
  | toResults (e : ResultEntry)
  | rankFail (gbifOrder gbifClass : Option String) (reason : String)
deriving DecidableEq, Repr

/-- One iteration of the loop, returning the query sent to GBIF (`none`
for the not-collected fast path) and where the row was routed. -/
def processRow (lookup : LookupFn) (r : InputRow) : Option Query × RowOutcome :=
  if r.name_type == "not_collected" then
    (none, .toResults (notCollectedEntry r))
  else
    match lookup (buildQuery r.proposed_name) with
    | .error msg =>
      (some (buildQuery r.proposed_name),
        .toResults (errorEntry r (buildQuery r.proposed_name) msg))
    | .ok g =>
      match rankCheck r.orig g with
      | some reason => (some (buildQuery r.proposed_name), .rankFail g.order g.class_ reason)
      | none => (some (buildQuery r.proposed_name), .toResults (successEntry r g))

/-- A row routed to `tax_validation_fails` (lines 375-392).  The script's
CSV record projects `row.orig` (Process_ID, phylum, class, order, family,
genus, species, taxid, matched_rank) plus the two GBIF ranks and the
failure reason; the originating row is kept here to track identity. -/
structure FailEntry where
  row : InputRow
  gbifOrder : Option String
  gbifClass : Option String
  reason : String
deriving DecidableEq, Repr

/-- The whole loop: the `results` list and the `tax_validation_fails`
list, in input order. -/
def processAll (lookup : LookupFn) : List InputRow → List ResultEntry × List FailEntry
  | [] => ([], [])
  | r :: rest =>
    match (processRow lookup r).2 with
    | .toResults e =>
      (e :: (processAll lookup rest).1, (processAll lookup rest).2)
    | .rankFail go gc reason =>
      ((processAll lookup rest).1, ⟨r, go, gc, reason⟩ :: (processAll lookup rest).2)

/-! ## Acceptance mask (lines 437-489) -/

/-- Pandas `fillna('')` on a string cell. -/
def optStr (o : Option String) : String := o.getD ""

/-- Pandas `fillna(0)` on the confidence cell. -/
def optConf (o : Option Int) : Int := o.getD 0

/-- Mask case 1 (line 473): `status == 'NOT_COLLECTED' & matchType == 'NONE'`
(no `fillna`: a missing cell compares unequal). -/
def maskCase1 (e : ResultEntry) : Bool :=
  optEqStr e.status "NOT_COLLECTED" && optEqStr e.matchType "NONE"

/-- `valid_binomial` (lines 438-441): at least two whitespace-separated
tokens and no literal `sp.` inside the lowercased text. -/
def valid_binomial (name : String) : Bool :=
  decide (2 ≤ pyWordCount name) && !pyContains "sp." (pyLower name)

/-- Mask case 2 (lines 476-479): species-level acceptance. -/
def maskCase2 (e : ResultEntry) : Bool :=
  valid_binomial e.proposed_name && decide (95 < optConf e.confidence) &&
  (pyStrip (optStr e.status) == "ACCEPTED") && (pyStrip (optStr e.matchType) == "EXACT")

/-- Mask case 3 (lines 482-485): genus-level acceptance.  The containment
test is pandas `str.contains('sp.', na=False)` with its default
`regex=True`, i.e. the regular expression `sp.` in which the dot matches
any character. -/
def maskCase3 (e : ResultEntry) : Bool :=
  spRegexL e.proposed_name.data && (pyStrip (optStr e.status) == "ACCEPTED") &&
  (pyStrip (optStr e.rank) == "GENUS") && decide (90 < optConf e.confidence)

/-- The full acceptance mask (lines 471-486): a row of `result_df` is
consistent iff one of the three cases holds. -/
def isConsistent (e : ResultEntry) : Bool :=
  maskCase1 e || maskCase2 e || maskCase3 e

/-- Which of the three conceptual output streams a single input row ends
up in: the rank-invalid stream (`tax_validation_fails`), the consistent
partition (`consistent_df`), or the inconsistent partition
(`inconsistent_df`). -/
inductive Stream where
  | resolved
  | inconsistent
  | rankInvalid
deriving DecidableEq, Repr

/-- Routing of one row through lookup, rank validation and the mask. -/
def routeRow (lookup : LookupFn) (r : InputRow) : Stream :=
  match (processRow lookup r).2 with
  | .rankFail _ _ _ => .rankInvalid
  | .toResults e => if isConsistent e then .resolved else .inconsistent

/-! ## Description merge (lines 519-571) -/

/-- Decimal digit character for a single digit value. -/
def digitChar (n : Nat) : Char :=
  if n = 0 then '0' else if n = 1 then '1' else if n = 2 then '2'
  else if n = 3 then '3' else if n = 4 then '4' else if n = 5 then '5'
  else if n = 6 then '6' else if n = 7 then '7' else if n = 8 then '8'
  else '9'

/-- Fuel-indexed accumulator loop producing decimal digits, most
significant first. -/
def natDigitsAux : Nat → Nat → List Char → List Char
  | 0, _, acc => acc
  | fuel + 1, n, acc =>
    if n < 10 then digitChar n :: acc
    else natDigitsAux fuel (n / 10) (digitChar (n % 10) :: acc)

/-- Decimal digits of a natural number, most significant first
(Python `f"{key}"` rendering of the `int(...)`-converted GBIF key). -/
def natDigits (n : Nat) : List Char := natDigitsAux (n + 1) n []

/-- Decimal rendering of a natural number. -/
def natRepr (n : Nat) : String := String.mk (natDigits n)

/-- The reference string appended to a description:
`https://www.gbif.org/species/{key}` (lines 559 and 568). -/
def gbifUrl (k : Nat) : String := "https://www.gbif.org/species/" ++ natRepr k

/-- Lines 544-571: the description update for one consistent row.
`NOT_COLLECTED` entries are skipped; a prior description that is `NaN` or
the (case-insensitive) literal `nan` is treated as empty; a name containing
the literal `sp.` with a present `genusKey` appends the genus-key URL,
otherwise a present `usageKey` appends the usage-key URL; the concatenation
`f"{current} {url}"` is stripped.  When no key is available the description
is left untouched. -/
def mergeDescription (current : String) (e : ResultEntry) : String :=
  if optEqStr e.status "NOT_COLLECTED" then current
  else
    let cur := if pyLower current == "nan" then "" else current
    if pyContains "sp." e.proposed_name then
      match e.genusKey with
      | some k => pyStrip (cur ++ " " ++ gbifUrl k)
      | none =>
        match e.usageKey with
        | some k => pyStrip (cur ++ " " ++ gbifUrl k)
        | none => current
    else
      match e.usageKey with
      | some k => pyStrip (cur ++ " " ++ gbifUrl k)
      | none => current

/-- The whole description-update pass (lines 521-571) restricted to one
input row: fold the consistent entries in order, applying each entry whose
`index` matches the row's index to the row's description. -/
def applyMergeRow (consistent : List ResultEntry) (idx : Nat) (desc : String) : String :=
  consistent.foldl (fun d e => if e.index = idx then mergeDescription d e else d) desc

/-! ## Output files (lines 412-414, 497-501, 576-584) -/

/-- The row identities landing in each of the three output files. -/
structure WrittenStreams where
  resolvedFile : List Nat
  inconsistentFile : List Nat
  rankInvalidFile : List Nat
deriving DecidableEq, Repr

/-- What the function writes, by row index.  Lines 412-414: when the
`results` list is empty the function returns before writing anything (the
validation-failure file included).  Otherwise: the main output file
(line 578) is the whole of `input_df` — every row that entered the loop;
the inconsistent file (line 583) holds `result_df[~mask]`; the
validation-failure file (lines 498-501) is written only when nonempty. -/
def writeOutputs (lookup : LookupFn) (rows : List InputRow) : WrittenStreams :=
  let p := processAll lookup rows
  if p.1.isEmpty then ⟨[], [], []⟩
  else
    { resolvedFile := rows.map (fun r => r.index)
      inconsistentFile := (p.1.filter (fun e => !isConsistent e)).map (fun e => e.index)
      rankInvalidFile :=
        if p.2.isEmpty then [] else p.2.map (fun f => f.row.index) }

/-! ## Helper lemmas -/

theorem heta (s : String) : String.mk s.data = s := by
  cases s
  rfl

theorem str_empty_append (s : String) : "" ++ s = s := by
  cases s
  rfl

theorem dropWhile_ws_cons (c : Char) (l : List Char) (h : isWS c = false) :
    (c :: l).dropWhile isWS = c :: l := by
  simp [List.dropWhile_cons, h]

theorem dropWhile_ws_append (c0 : Char) (rest : List Char) (h0 : isWS c0 = false) :
    ∀ pre : List Char, (∀ c ∈ pre, isWS c = true) →
      (pre ++ c0 :: rest).dropWhile isWS = c0 :: rest := by
  intro pre
  induction pre with
  | nil =>
    intro _
    simp [List.dropWhile_cons, h0]
  | cons p ps ih =>
    intro hpre
    have hp : isWS p = true := hpre p (List.mem_cons_self p ps)
    simp only [List.cons_append, List.dropWhile_cons, hp, if_true]
    exact ih fun c hc => hpre c (List.mem_cons_of_mem p hc)

theorem pyStripL_noop (c0 : Char) (mid : List Char) (d : Char)
    (h0 : isWS c0 = false) (hd : isWS d = false) :
    pyStripL (c0 :: (mid ++ [d])) = c0 :: (mid ++ [d]) := by
  unfold pyStripL
  rw [dropWhile_ws_cons _ _ h0]
  have h2 : (c0 :: (mid ++ [d])).reverse = d :: (mid.reverse ++ [c0]) := by
    simp
  rw [h2, dropWhile_ws_cons _ _ hd, ← h2, List.reverse_reverse]

theorem pyStripL_ws_pre (pre : List Char) (hpre : ∀ c ∈ pre, isWS c = true)
    (c0 : Char) (mid : List Char) (d : Char)
    (h0 : isWS c0 = false) (hd : isWS d = false) :
    pyStripL (pre ++ c0 :: (mid ++ [d])) = c0 :: (mid ++ [d]) := by
  unfold pyStripL
  rw [dropWhile_ws_append c0 (mid ++ [d]) h0 pre hpre]
  have h2 : (c0 :: (mid ++ [d])).reverse = d :: (mid.reverse ++ [c0]) := by
    simp
  rw [h2, dropWhile_ws_cons _ _ hd, ← h2, List.reverse_reverse]

theorem digitChar_not_ws (n : Nat) : isWS (digitChar n) = false := by
  unfold digitChar
  repeat' split
  all_goals decide

theorem natDigitsAux_not_ws : ∀ (fuel n : Nat) (acc : List Char),
    (∀ c ∈ acc, isWS c = false) → ∀ c ∈ natDigitsAux fuel n acc, isWS c = false := by
  intro fuel
  induction fuel with
  | zero =>
    intro n acc hacc
    simpa [natDigitsAux] using hacc
  | succ f ih =>
    intro n acc hacc c hc
    unfold natDigitsAux at hc
    split at hc
    · rcases List.mem_cons.mp hc with h | h
      · subst h
        exact digitChar_not_ws n
      · exact hacc c h
    · refine ih (n / 10) _ ?_ c hc
      intro x hx
      rcases List.mem_cons.mp hx with h | h
      · subst h
        exact digitChar_not_ws _
      · exact hacc x h

theorem natDigits_not_ws (n : Nat) : ∀ c ∈ natDigits n, isWS c = false :=
  natDigitsAux_not_ws (n + 1) n [] (by simp)

theorem natDigitsAux_ne_nil : ∀ (fuel n : Nat) (acc : List Char),
    acc ≠ [] → natDigitsAux fuel n acc ≠ [] := by
  intro fuel
  induction fuel with
  | zero =>
    intro n acc hacc
    simpa [natDigitsAux] using hacc
  | succ f ih =>
    intro n acc hacc
    unfold natDigitsAux
    split
    · simp
    · exact ih (n / 10) _ (by simp)

theorem natDigits_ne_nil (n : Nat) : natDigits n ≠ [] := by
  unfold natDigits natDigitsAux
  split
  · simp
  · exact natDigitsAux_ne_nil _ _ _ (by simp)

theorem gbifUrl_data (k : Nat) :
    ∃ mid d, (gbifUrl k).data = 'h' :: (mid ++ [d]) ∧ isWS d = false := by
  have hne := natDigits_ne_nil k
  refine ⟨"ttps://www.gbif.org/species/".data ++ (natDigits k).dropLast,
    (natDigits k).getLast hne, ?_, natDigits_not_ws k _ (List.getLast_mem hne)⟩
  have h1 : (gbifUrl k).data = "https://www.gbif.org/species/".data ++ natDigits k := by
    simp [gbifUrl, natRepr]
  have h2 : "https://www.gbif.org/species/".data
      = 'h' :: "ttps://www.gbif.org/species/".data := by
    decide
  rw [h1, h2]
  have h3 := List.dropLast_concat_getLast hne
  simp only [List.cons_append, List.append_assoc]
  rw [h3]

theorem pyStrip_space_url (k : Nat) : pyStrip (" " ++ gbifUrl k) = gbifUrl k := by
  obtain ⟨mid, d, hdata, hd⟩ := gbifUrl_data k
  have hfull : (" " ++ gbifUrl k).data = [' '] ++ 'h' :: (mid ++ [d]) := by
    rw [String.data_append, hdata]
  unfold pyStrip
  rw [hfull, pyStripL_ws_pre [' '] (by decide) 'h' mid d (by decide) hd, ← hdata, heta]

theorem pyStrip_desc_append (cur : String) (c0 : Char) (t : List Char)
    (hcur : cur.data = c0 :: t) (h0 : isWS c0 = false) (k : Nat) :
    pyStrip (cur ++ " " ++ gbifUrl k) = cur ++ " " ++ gbifUrl k := by
  obtain ⟨mid, d, hdata, hd⟩ := gbifUrl_data k
  have hfull : (cur ++ " " ++ gbifUrl k).data
      = c0 :: ((t ++ ' ' :: 'h' :: mid) ++ [d]) := by
    rw [String.data_append, String.data_append, hcur, hdata]
    simp
  unfold pyStrip
  rw [hfull, pyStripL_noop _ _ _ h0 hd, ← hfull, heta]

theorem pyLower_gbifUrl_ne_nan (k : Nat) : (pyLower (gbifUrl k) == "nan") = false := by
  obtain ⟨mid, d, hdata, _⟩ := gbifUrl_data k
  apply beq_eq_false_iff_ne.mpr
  intro h
  have hdat := congrArg String.data h
  rw [show pyLower (gbifUrl k) = String.mk ((gbifUrl k).data.map Char.toLower) from rfl]
    at hdat
  rw [hdata] at hdat
  simp only [List.map_cons] at hdat
  exact absurd (List.head_eq_of_cons_eq hdat) (by decide)

/-- Case 1 of the fallback: a valid species value is returned, whatever
genus and family hold. -/
theorem format_species_case (row : SpecimenRecord)
    (h1 : pyLower (pyStrip (pyStr row.species)) ≠ "not collected")
    (h2 : pyStrip (pyStr row.species) ≠ "") :
    format_taxonomic_name row = pyStrip (pyStr row.species) := by
  simp [format_taxonomic_name, h1, h2]

/-- Case 2 of the fallback: species invalid, genus valid. -/
theorem format_genus_case (row : SpecimenRecord)
    (h0 : pyLower (pyStrip (pyStr row.species)) = "not collected" ∨
      pyStrip (pyStr row.species) = "")
    (h1 : pyLower (pyStrip (pyStr row.genus)) ≠ "not collected")
    (h2 : pyStrip (pyStr row.genus) ≠ "") :
    format_taxonomic_name row
      = pyStrip (pyStr row.genus) ++ " sp. " ++ pyStrip row.process_id := by
  rcases h0 with h | h <;> simp [format_taxonomic_name, h, h1, h2]

/-- Case 3 of the fallback: species and genus invalid, family valid. -/
theorem format_family_case (row : SpecimenRecord)
    (h0 : pyLower (pyStrip (pyStr row.species)) = "not collected" ∨
      pyStrip (pyStr row.species) = "")
    (h0g : pyLower (pyStrip (pyStr row.genus)) = "not collected" ∨
      pyStrip (pyStr row.genus) = "")
    (h1 : pyLower (pyStrip (pyStr row.family)) ≠ "not collected")
    (h2 : pyStrip (pyStr row.family) ≠ "") :
    format_taxonomic_name row
      = pyStrip (pyStr row.family) ++ " sp. " ++ pyStrip row.process_id := by
  rcases h0 with h | h <;> rcases h0g with hg | hg <;>
    simp [format_taxonomic_name, h, hg, h1, h2]

/-- Case 4 of the fallback: no valid taxonomic information. -/
theorem format_sentinel_case (row : SpecimenRecord)
    (h0 : pyLower (pyStrip (pyStr row.species)) = "not collected" ∨
      pyStrip (pyStr row.species) = "")
    (h0g : pyLower (pyStrip (pyStr row.genus)) = "not collected" ∨
      pyStrip (pyStr row.genus) = "")
    (h0f : pyLower (pyStrip (pyStr row.family)) = "not collected" ∨
      pyStrip (pyStr row.family) = "") :
    format_taxonomic_name row = "not collected" := by
  rcases h0 with h | h <;> rcases h0g with hg | hg <;> rcases h0f with hf | hf <;>
    simp [format_taxonomic_name, h, hg, hf]

/-- A stripped name whose lowercasing is not the sentinel is itself not the
sentinel (the sentinel is already lowercase). -/
theorem ne_sentinel_of_lower_ne (n : String)
    (h : pyLower n ≠ "not collected") : n ≠ "not collected" := by
  intro he
  exact h (by rw [he]; decide)

/-- Branch 1 of `determine_name_type`. -/
theorem nameType_sentinel (name orig : String)
    (h : pyLower (pyStrip name) = "not collected") :
    determine_name_type name orig = "not_collected" := by
  simp [determine_name_type, h]

/-- Branch 2 of `determine_name_type`. -/
theorem nameType_sp (name orig : String)
    (h1 : pyLower (pyStrip name) ≠ "not collected")
    (h2 : pyContains "sp." (pyStrip name) = true) :
    determine_name_type name orig = "novel_species" := by
  simp [determine_name_type, h1, h2]

/-- Branch 3 of `determine_name_type`: the original species field was the
sentinel; the text necessarily differs from it after branch 1. -/
theorem nameType_novel_from_sentinel (name orig : String)
    (h1 : pyLower (pyStrip name) ≠ "not collected")
    (h2 : pyContains "sp." (pyStrip name) = false)
    (h3 : pyLower (pyStrip orig) = "not collected") :
    determine_name_type name orig = "novel_species" := by
  have hne : pyStrip name ≠ "not collected" := ne_sentinel_of_lower_ne _ h1
  simp [determine_name_type, h1, h2, h3, hne]

/-- Branch 4 of `determine_name_type`: the token-count test. -/
theorem nameType_default (name orig : String)
    (h1 : pyLower (pyStrip name) ≠ "not collected")
    (h2 : pyContains "sp." (pyStrip name) = false)
    (h3 : pyLower (pyStrip orig) ≠ "not collected") :
    determine_name_type name orig
      = if 2 ≤ pyWordCount (pyStrip name) then "published_name" else "" := by
  simp [determine_name_type, h1, h2, h3]

/-! ## Claim theorems -/

/-- C3: name proposal evaluates the taxonomic fields in strict priority
order species, then genus, then family, then the sentinel.  A valid
(stripped) species value — nonempty and not the case-insensitive sentinel —
is returned whatever genus and family hold (in particular a record with
valid species and valid genus yields the species name); only when species
is invalid is the genus `sp.` form used, then the family `sp.` form, then
the literal `not collected`. -/
theorem name_proposal_priority (row : SpecimenRecord) :
    (pyLower (pyStrip (pyStr row.species)) ≠ "not collected" →
      pyStrip (pyStr row.species) ≠ "" →
      format_taxonomic_name row = pyStrip (pyStr row.species)) ∧
    ((pyLower (pyStrip (pyStr row.species)) = "not collected" ∨
        pyStrip (pyStr row.species) = "") →
      pyLower (pyStrip (pyStr row.genus)) ≠ "not collected" →
      pyStrip (pyStr row.genus) ≠ "" →
      format_taxonomic_name row
        = pyStrip (pyStr row.genus) ++ " sp. " ++ pyStrip row.process_id) ∧
    ((pyLower (pyStrip (pyStr row.species)) = "not collected" ∨
        pyStrip (pyStr row.species) = "") →
      (pyLower (pyStrip (pyStr row.genus)) = "not collected" ∨
        pyStrip (pyStr row.genus) = "") →
      pyLower (pyStrip (pyStr row.family)) ≠ "not collected" →
      pyStrip (pyStr row.family) ≠ "" →
      format_taxonomic_name row
        = pyStrip (pyStr row.family) ++ " sp. " ++ pyStrip row.process_id) ∧
    ((pyLower (pyStrip (pyStr row.species)) = "not collected" ∨
        pyStrip (pyStr row.species) = "") →
      (pyLower (pyStrip (pyStr row.genus)) = "not collected" ∨
        pyStrip (pyStr row.genus) = "") →
      (pyLower (pyStrip (pyStr row.family)) = "not collected" ∨
        pyStrip (pyStr row.family) = "") →
      format_taxonomic_name row = "not collected") :=
  ⟨format_species_case row, format_genus_case row,
   format_family_case row, format_sentinel_case row⟩

/-- Witness for C3: the spec's own scenario — species is the sentinel and
genus is `Apis`, so the proposal is `Apis sp. X1`. -/
theorem name_proposal_priority_witness :
    format_taxonomic_name
      { process_id := "X1", species := some "not collected",
        genus := some "Apis", family := some "Apidae" } = "Apis sp. X1" := by
  have h := (name_proposal_priority
    { process_id := "X1", species := some "not collected",
      genus := some "Apis", family := some "Apidae" }).2.1
    (Or.inl (by decide)) (by decide) (by decide)
  rw [h]
  decide

/-- C4: the name type is `not_collected` when the (stripped) text equals the
sentinel — sentinel equality being case-insensitive throughout the spec;
else `novel_species` when the text contains `sp.` or when the original
species field was the sentinel (the text then necessarily differs from it);
else `published_name` exactly when the text has at least two
whitespace-separated tokens, and the empty name type otherwise. -/
theorem name_type_rules (name orig : String) :
    (pyLower (pyStrip name) = "not collected" →
      determine_name_type name orig = "not_collected") ∧
    (pyLower (pyStrip name) ≠ "not collected" →
      pyContains "sp." (pyStrip name) = true →
      determine_name_type name orig = "novel_species") ∧
    (pyLower (pyStrip name) ≠ "not collected" →
      pyContains "sp." (pyStrip name) = false →
      pyLower (pyStrip orig) = "not collected" →
      determine_name_type name orig = "novel_species") ∧
    (pyLower (pyStrip name) ≠ "not collected" →
      pyContains "sp." (pyStrip name) = false →
      pyLower (pyStrip orig) ≠ "not collected" →
      determine_name_type name orig
        = if 2 ≤ pyWordCount (pyStrip name) then "published_name" else "") :=
  ⟨nameType_sentinel name orig, nameType_sp name orig,
   nameType_novel_from_sentinel name orig, nameType_default name orig⟩

/-- Witness for C4: a `sp.` proposal is typed `novel_species`. -/
theorem name_type_rules_witness :
    determine_name_type "Apis sp. X1" "not collected" = "novel_species" :=
  (name_type_rules "Apis sp. X1" "not collected").2.1 (by decide) (by decide)

/-- C10: a missing (`NaN`) species field stringifies to the literal `nan`,
which is nonempty and not the sentinel, so `nan` is returned verbatim as
the proposed name — the genus and family fallbacks are never consulted —
and its name type is the empty string, `nan` being a single token. -/
theorem nan_species_passthrough (row : SpecimenRecord) (h : row.species = none) :
    format_taxonomic_name row = "nan" ∧
    determine_name_type (format_taxonomic_name row) (pyStr row.species) = "" := by
  have hf : format_taxonomic_name row = pyStrip (pyStr row.species) :=
    format_species_case row (by rw [h]; decide) (by rw [h]; decide)
  have hf2 : format_taxonomic_name row = "nan" := by
    rw [hf, h]
    decide
  refine ⟨hf2, ?_⟩
  rw [hf2, h]
  decide

/-- Witness for C10: a record with missing species but a perfectly valid
genus still yields `nan`. -/
theorem nan_species_passthrough_witness :
    format_taxonomic_name
        { process_id := "Q1", species := none, genus := some "Apis" } = "nan" ∧
    determine_name_type
        (format_taxonomic_name
          { process_id := "Q1", species := none, genus := some "Apis" })
        (pyStr (none : Option String)) = "" :=
  nan_species_passthrough
    { process_id := "Q1", species := none, genus := some "Apis" } rfl

/-- An error-tagged result entry never satisfies the acceptance mask: its
`status` and `confidence` cells are missing, which falsifies every case. -/
theorem isConsistent_errorEntry (r : InputRow) (q : Query) (msg : String) :
    isConsistent (errorEntry r q msg) = false := by
  have h1 : maskCase1 (errorEntry r q msg) = false := by
    unfold maskCase1 errorEntry
    simp [optEqStr]
  have h2 : maskCase2 (errorEntry r q msg) = false := by
    unfold maskCase2 errorEntry
    simp only [optConf, Option.getD_none]
    rw [show (decide ((95 : Int) < 0)) = false from rfl]
    simp
  have h3 : maskCase3 (errorEntry r q msg) = false := by
    unfold maskCase3 errorEntry
    simp only [optStr, Option.getD_none]
    rw [show (pyStrip "" == "ACCEPTED") = false from rfl]
    simp
  unfold isConsistent
  rw [h1, h2, h3]
  rfl

/-- C5: a `not_collected` proposal takes the fast path — no query is built
and the oracle is never consulted (the outcome is the same for any two
lookup functions); the synthesized result carries status `NOT_COLLECTED`,
matchType `NONE` and confidence 100; that entry passes acceptance case 1
of the mask, and the description-merge step leaves any description
unchanged for it. -/
theorem not_collected_fast_path (lookup lookup2 : LookupFn) (r : InputRow)
    (cur : String) (h : r.name_type = "not_collected") :
    (processRow lookup r).1 = none ∧
    processRow lookup r = processRow lookup2 r ∧
    (processRow lookup r).2 = .toResults (notCollectedEntry r) ∧
    (notCollectedEntry r).status = some "NOT_COLLECTED" ∧
    (notCollectedEntry r).matchType = some "NONE" ∧
    (notCollectedEntry r).confidence = some 100 ∧
    maskCase1 (notCollectedEntry r) = true ∧
    isConsistent (notCollectedEntry r) = true ∧
    mergeDescription cur (notCollectedEntry r) = cur := by
  refine ⟨?_, ?_, ?_, rfl, rfl, rfl, ?_, ?_, ?_⟩
  · simp [processRow, h]
  · simp [processRow, h]
  · simp [processRow, h]
  · simp [maskCase1, notCollectedEntry, optEqStr]
  · simp [isConsistent, maskCase1, notCollectedEntry, optEqStr]
  · simp [mergeDescription, notCollectedEntry, optEqStr]

/-- Witness for C5: a concrete `not collected` record, probed with a lookup
oracle that would fail if called. -/
theorem not_collected_fast_path_witness :
    (processRow (fun _ => Except.error "no call expected")
      { index := 0, proposed_name := "not collected", name_type := "not_collected",
        process_id := "P1", orig := { process_id := "P1" } }).1 = none ∧
    isConsistent (notCollectedEntry
      { index := 0, proposed_name := "not collected", name_type := "not_collected",
        process_id := "P1", orig := { process_id := "P1" } }) = true ∧
    mergeDescription "keep me"
      (notCollectedEntry
        { index := 0, proposed_name := "not collected", name_type := "not_collected",
          process_id := "P1", orig := { process_id := "P1" } }) = "keep me" := by
  have h := not_collected_fast_path
    (fun _ => Except.error "no call expected") (fun _ => Except.error "other")
    { index := 0, proposed_name := "not collected", name_type := "not_collected",
      process_id := "P1", orig := { process_id := "P1" } }
    "keep me" rfl
  exact ⟨h.1, h.2.2.2.2.2.2.2.1, h.2.2.2.2.2.2.2.2⟩

/-- C7 (amended): a lookup error is caught per record and converted into an
error-tagged entry whose match fields (status, confidence, matchType,
scientificName, order, class, keys) are all absent, except that the
`rank` of the query is echoed back into the entry (`**name_info`), so a
failed genus-level query carries `rank = GENUS`; the entry never satisfies
the acceptance mask and is therefore routed to the inconsistent stream;
and processing of the remaining rows is exactly the processing of the rest
of the batch, unaffected by the failure. -/
theorem lookup_error_isolated (lookup : LookupFn) (r : InputRow)
    (rest : List InputRow) (msg : String)
    (hn : r.name_type ≠ "not_collected")
    (herr : lookup (buildQuery r.proposed_name) = .error msg) :
    (processRow lookup r).2
      = .toResults (errorEntry r (buildQuery r.proposed_name) msg) ∧
    (errorEntry r (buildQuery r.proposed_name) msg).error = some msg ∧
    (errorEntry r (buildQuery r.proposed_name) msg).status = none ∧
    (errorEntry r (buildQuery r.proposed_name) msg).confidence = none ∧
    (errorEntry r (buildQuery r.proposed_name) msg).matchType = none ∧
    (errorEntry r (buildQuery r.proposed_name) msg).scientificName = none ∧
    (errorEntry r (buildQuery r.proposed_name) msg).order = none ∧
    (errorEntry r (buildQuery r.proposed_name) msg).class_ = none ∧
    (errorEntry r (buildQuery r.proposed_name) msg).usageKey = none ∧
    (errorEntry r (buildQuery r.proposed_name) msg).genusKey = none ∧
    (errorEntry r (buildQuery r.proposed_name) msg).rank
      = (buildQuery r.proposed_name).rank ∧
    isConsistent (errorEntry r (buildQuery r.proposed_name) msg) = false ∧
    processAll lookup (r :: rest)
      = ((errorEntry r (buildQuery r.proposed_name) msg)
            :: (processAll lookup rest).1,
          (processAll lookup rest).2) := by
  have hpr : (processRow lookup r).2
      = .toResults (errorEntry r (buildQuery r.proposed_name) msg) := by
    simp [processRow, hn, herr]
  refine ⟨hpr, rfl, rfl, rfl, rfl, rfl, rfl, rfl, rfl, rfl, rfl,
    isConsistent_errorEntry r (buildQuery r.proposed_name) msg, ?_⟩
  simp only [processAll]
  rw [hpr]

/-- Witness for C7 (amended): a concrete failing lookup on a plain binomial
query. -/
theorem lookup_error_isolated_witness :
    (processRow (fun _ => Except.error "timeout")
        { index := 0, proposed_name := "Aus bus", name_type := "published_name",
          process_id := "P1", orig := { process_id := "P1" } }).2
      = .toResults (errorEntry
          { index := 0, proposed_name := "Aus bus", name_type := "published_name",
            process_id := "P1", orig := { process_id := "P1" } }
          (buildQuery "Aus bus") "timeout") ∧
    isConsistent (errorEntry
        { index := 0, proposed_name := "Aus bus", name_type := "published_name",
          process_id := "P1", orig := { process_id := "P1" } }
        (buildQuery "Aus bus") "timeout") = false := by
  have h := lookup_error_isolated (fun _ => Except.error "timeout")
    { index := 0, proposed_name := "Aus bus", name_type := "published_name",
      process_id := "P1", orig := { process_id := "P1" } }
    [] "timeout" (by decide) rfl
  exact ⟨h.1, h.2.2.2.2.2.2.2.2.2.2.2.1⟩

/-- Counterexample for C7 as stated: when the failed query was genus-level,
the error entry's `rank` cell is populated with `GENUS` (echoed from
`**name_info`), so not every match field of the error-tagged result is
absent. -/
theorem lookup_error_rank_echo_counterexample :
    (processRow (fun _ => Except.error "timeout")
        { index := 0, proposed_name := "Apis sp. X1", name_type := "novel_species",
          process_id := "P1", orig := { process_id := "P1" } }).2
      = .toResults
          { index := 0, process_id := "P1", proposed_name := "Apis sp. X1",
            rank := some "GENUS", error := some "timeout" } ∧
    ({ index := 0, process_id := "P1", proposed_name := "Apis sp. X1",
        rank := some "GENUS", error := some "timeout" } : ResultEntry).rank
      ≠ none := by
  decide

/-- Every entry appended to `results` carries the index of the row that
produced it. -/
theorem processRow_toResults_index (lookup : LookupFn) (r : InputRow)
    (e : ResultEntry) (h : (processRow lookup r).2 = .toResults e) :
    e.index = r.index := by
  unfold processRow at h
  split at h
  · simp only [RowOutcome.toResults.injEq] at h
    rw [← h]
    rfl
  · split at h
    · simp only [RowOutcome.toResults.injEq] at h
      rw [← h]
      rfl
    · split at h
      · simp at h
      · simp only [RowOutcome.toResults.injEq] at h
        rw [← h]
        rfl

/-- C1 (amended): rank cross-validation runs on every record whose lookup
succeeds, before and independently of the acceptance rules; a record lands
in the rank-invalid stream exactly when it is not a `not_collected`
fast-path record, its lookup succeeded, and the order/class
cross-validation against the original record failed.  In particular a
RankInvalid outcome implies the lookup succeeded, but not that the record
satisfied the species- or genus-level acceptance rules. -/
theorem rank_validation_scope (lookup : LookupFn) (r : InputRow) :
    routeRow lookup r = Stream.rankInvalid ↔
      (r.name_type == "not_collected") = false ∧
      ∃ g, lookup (buildQuery r.proposed_name) = .ok g ∧
        rankCheck r.orig g ≠ none := by
  unfold routeRow processRow
  by_cases hn : (r.name_type == "not_collected") = true
  · rw [if_pos hn]
    simp [hn]
    split <;> simp
  · rw [if_neg hn]
    cases hl : lookup (buildQuery r.proposed_name) with
    | error msg =>
      simp only [hl]
      constructor
      · intro hcontr
        split at hcontr <;> simp_all
      · rintro ⟨-, g, hg, -⟩
        exact absurd hg (by simp)
    | ok g =>
      cases hr : rankCheck r.orig g with
      | some reason =>
        simp only [hl, hr]
        constructor
        · intro _
          exact ⟨Bool.of_not_eq_true hn, g, rfl, by simp [hr]⟩
        · intro _
          trivial
      | none =>
        simp only [hl, hr]
        constructor
        · intro hcontr
          split at hcontr <;> simp_all
        · rintro ⟨-, g2, hg2, hrc⟩
          rw [Except.ok.injEq] at hg2
          rw [← hg2] at hrc
          exact absurd hr hrc

/-- Witness for C1 (amended): a successful lookup whose returned order and
class both disagree with the record routes to the rank-invalid stream. -/
theorem rank_validation_scope_witness :
    routeRow
        (fun _ => Except.ok
          { status := some "SYNONYM", confidence := some 98,
            matchType := some "EXACT", order := some "Coleoptera",
            class_ := some "Insecta" })
        { index := 0, proposed_name := "Aus bus", name_type := "published_name",
          process_id := "P1",
          orig := { process_id := "P1", order := some "Diptera",
                    class_ := some "Arachnida" } }
      = Stream.rankInvalid :=
  (rank_validation_scope
      (fun _ => Except.ok
        { status := some "SYNONYM", confidence := some 98,
          matchType := some "EXACT", order := some "Coleoptera",
          class_ := some "Insecta" })
      { index := 0, proposed_name := "Aus bus", name_type := "published_name",
        process_id := "P1",
        orig := { process_id := "P1", order := some "Diptera",
                  class_ := some "Arachnida" } }).mpr
    ⟨by decide,
      { status := some "SYNONYM", confidence := some 98,
        matchType := some "EXACT", order := some "Coleoptera",
        class_ := some "Insecta" }, rfl, by decide⟩

/-- Counterexample for C1 as stated: a record whose lookup succeeds with
status `SYNONYM` — failing the species-level rules (no `ACCEPTED` status)
and the genus-level rules alike — is still routed to the rank-invalid
stream when its order and class disagree, so RankInvalid does not imply
that the naming acceptance rules held. -/
theorem rank_validation_scope_counterexample :
    routeRow
        (fun _ => Except.ok
          { status := some "SYNONYM", confidence := some 99,
            matchType := some "EXACT", order := some "Coleoptera",
            class_ := some "Insecta" })
        { index := 1, proposed_name := "Canthophorus dubius",
          name_type := "published_name", process_id := "P2",
          orig := { process_id := "P2", order := some "Hemiptera",
                    class_ := some "Arachnida" } }
      = Stream.rankInvalid ∧
    maskCase2 (successEntry
        { index := 1, proposed_name := "Canthophorus dubius",
          name_type := "published_name", process_id := "P2",
          orig := { process_id := "P2", order := some "Hemiptera",
                    class_ := some "Arachnida" } }
        { status := some "SYNONYM", confidence := some 99,
          matchType := some "EXACT", order := some "Coleoptera",
          class_ := some "Insecta" }) = false ∧
    maskCase3 (successEntry
        { index := 1, proposed_name := "Canthophorus dubius",
          name_type := "published_name", process_id := "P2",
          orig := { process_id := "P2", order := some "Hemiptera",
                    class_ := some "Arachnida" } }
        { status := some "SYNONYM", confidence := some 99,
          matchType := some "EXACT", order := some "Coleoptera",
          class_ := some "Insecta" }) = false ∧
    maskCase1 (successEntry
        { index := 1, proposed_name := "Canthophorus dubius",
          name_type := "published_name", process_id := "P2",
          orig := { process_id := "P2", order := some "Hemiptera",
                    class_ := some "Arachnida" } }
        { status := some "SYNONYM", confidence := some 99,
          matchType := some "EXACT", order := some "Coleoptera",
          class_ := some "Insecta" }) = false := by
  decide

/-- Each input row contributes exactly one element, carrying its index, to
either the `results` list or the `tax_validation_fails` list. -/
theorem processAll_index_perm (lookup : LookupFn) (rows : List InputRow) :
    List.Perm
      ((processAll lookup rows).1.map (fun e => e.index)
        ++ (processAll lookup rows).2.map (fun f => f.row.index))
      (rows.map (fun r => r.index)) := by
  induction rows with
  | nil => simp [processAll]
  | cons r rest ih =>
    cases hpr : (processRow lookup r).2 with
    | toResults e =>
      have hidx : e.index = r.index := processRow_toResults_index lookup r e hpr
      simp only [processAll, hpr, List.map_cons, List.cons_append, hidx]
      exact ih.cons r.index
    | rankFail go gc reason =>
      simp only [processAll, hpr, List.map_cons]
      exact List.Perm.trans List.perm_middle (ih.cons r.index)

/-- C2 (amended): the classification stage partitions the rows entering
reconciliation — every row's index appears exactly once across the
consistent partition, the inconsistent partition and the rank-invalid
list.  (The output files do not reflect this partition: the main output
file is written from the whole of `input_df`, so rows of the audit files
also appear there; see the counterexample.) -/
theorem reconciliation_partition (lookup : LookupFn) (rows : List InputRow) :
    List.Perm
      (((processAll lookup rows).1.filter isConsistent).map (fun e => e.index)
        ++ ((processAll lookup rows).1.filter
              (fun e => !isConsistent e)).map (fun e => e.index)
        ++ (processAll lookup rows).2.map (fun f => f.row.index))
      (rows.map (fun r => r.index)) := by
  have h1 :
      List.Perm
        ((processAll lookup rows).1.filter isConsistent
          ++ (processAll lookup rows).1.filter (fun e => !isConsistent e))
        (processAll lookup rows).1 :=
    List.filter_append_perm isConsistent (processAll lookup rows).1
  have h2 := (h1.map (fun e => e.index)).append_right
    ((processAll lookup rows).2.map (fun f => f.row.index))
  have h3 := processAll_index_perm lookup rows
  have heq :
      ((processAll lookup rows).1.filter isConsistent).map (fun e => e.index)
          ++ ((processAll lookup rows).1.filter
                (fun e => !isConsistent e)).map (fun e => e.index)
          ++ (processAll lookup rows).2.map (fun f => f.row.index)
        = ((processAll lookup rows).1.filter isConsistent
            ++ (processAll lookup rows).1.filter
                (fun e => !isConsistent e)).map (fun e => e.index)
          ++ (processAll lookup rows).2.map (fun f => f.row.index) := by
    rw [List.map_append, List.append_assoc]
  rw [heq]
  exact h2.trans h3

/-- Counterexample for C2 as stated: an inconsistent record (status
`SYNONYM`) appears both in the main output file — which is written from
the whole of `input_df` — and in the inconsistent audit file, so the three
written streams contain its row identifier twice. -/
theorem stream_partition_counterexample :
    (writeOutputs
        (fun _ => Except.ok
          { status := some "SYNONYM", confidence := some 98,
            matchType := some "EXACT", order := some "Diptera",
            class_ := some "Diptera", usageKey := some 1 })
        [{ index := 0, proposed_name := "Aus bus", name_type := "published_name",
           process_id := "P1",
           orig := { process_id := "P1", order := some "Diptera",
                     class_ := some "Diptera" } }]).resolvedFile = [0] ∧
    (writeOutputs
        (fun _ => Except.ok
          { status := some "SYNONYM", confidence := some 98,
            matchType := some "EXACT", order := some "Diptera",
            class_ := some "Diptera", usageKey := some 1 })
        [{ index := 0, proposed_name := "Aus bus", name_type := "published_name",
           process_id := "P1",
           orig := { process_id := "P1", order := some "Diptera",
                     class_ := some "Diptera" } }]).inconsistentFile = [0] ∧
    ¬ List.Nodup
        ((writeOutputs
            (fun _ => Except.ok
              { status := some "SYNONYM", confidence := some 98,
                matchType := some "EXACT", order := some "Diptera",
                class_ := some "Diptera", usageKey := some 1 })
            [{ index := 0, proposed_name := "Aus bus",
               name_type := "published_name", process_id := "P1",
               orig := { process_id := "P1", order := some "Diptera",
                         class_ := some "Diptera" } }]).resolvedFile
          ++ (writeOutputs
              (fun _ => Except.ok
                { status := some "SYNONYM", confidence := some 98,
                  matchType := some "EXACT", order := some "Diptera",
                  class_ := some "Diptera", usageKey := some 1 })
              [{ index := 0, proposed_name := "Aus bus",
                 name_type := "published_name", process_id := "P1",
                 orig := { process_id := "P1", order := some "Diptera",
                           class_ := some "Diptera" } }]).inconsistentFile
          ++ (writeOutputs
              (fun _ => Except.ok
                { status := some "SYNONYM", confidence := some 98,
                  matchType := some "EXACT", order := some "Diptera",
                  class_ := some "Diptera", usageKey := some 1 })
              [{ index := 0, proposed_name := "Aus bus",
                 name_type := "published_name", process_id := "P1",
                 orig := { process_id := "P1", order := some "Diptera",
                           class_ := some "Diptera" } }]).rankInvalidFile) := by
  decide

theorem optEqStr_eq_true (o : Option String) (s : String) :
    optEqStr o s = true ↔ o = some s := by
  cases o <;> simp [optEqStr]

/-- C6 (amended): a looked-up record is marked consistent iff one of the
three acceptance cases holds, where — as the code implements them — the
species-level case tests the lowercased text for absence of the literal
`sp.`, and the genus-level case tests the raw text against the regular
expression `sp.`, whose dot matches any character (pandas
`str.contains('sp.')` with its default `regex=True`), rather than the
literal `sp.`. -/
theorem acceptance_mask_characterization (e : ResultEntry) :
    isConsistent e = true ↔
      (e.status = some "NOT_COLLECTED" ∧ e.matchType = some "NONE") ∨
      (2 ≤ pyWordCount e.proposed_name ∧
        pyContains "sp." (pyLower e.proposed_name) = false ∧
        95 < optConf e.confidence ∧
        pyStrip (optStr e.status) = "ACCEPTED" ∧
        pyStrip (optStr e.matchType) = "EXACT") ∨
      (spRegexL e.proposed_name.data = true ∧
        pyStrip (optStr e.status) = "ACCEPTED" ∧
        pyStrip (optStr e.rank) = "GENUS" ∧
        90 < optConf e.confidence) := by
  simp only [isConsistent, maskCase1, maskCase2, maskCase3, valid_binomial,
    Bool.or_eq_true, Bool.and_eq_true, decide_eq_true_eq, beq_iff_eq,
    optEqStr_eq_true, Bool.not_eq_true']
  tauto

/-- Witness for C6 (amended): the spec's genus-level scenario — an
`Apis sp. X1` proposal accepted at rank GENUS with confidence 92 is
consistent. -/
theorem acceptance_mask_characterization_witness :
    isConsistent
      { index := 0, process_id := "P1", proposed_name := "Apis sp. X1",
        status := some "ACCEPTED", rank := some "GENUS",
        confidence := some 92, matchType := some "FUZZY",
        genusKey := some 4 } = true :=
  (acceptance_mask_characterization
    { index := 0, process_id := "P1", proposed_name := "Apis sp. X1",
      status := some "ACCEPTED", rank := some "GENUS",
      confidence := some 92, matchType := some "FUZZY",
      genusKey := some 4 }).mpr
    (Or.inr (Or.inr ⟨by decide, by decide, by decide, by decide⟩))

/-- The acceptance mask as the claim words it: case 2 tests the raw text
for at least two tokens and absence of `sp.`, and case 3 requires the text
to contain the literal `sp.`.  Stated only to be compared with the
implemented mask `isConsistent`. -/
def claimedConsistentLiteral (e : ResultEntry) : Bool :=
  (optEqStr e.status "NOT_COLLECTED" && optEqStr e.matchType "NONE") ||
  (decide (2 ≤ pyWordCount e.proposed_name) &&
    !pyContains "sp." e.proposed_name &&
    decide (95 < optConf e.confidence) &&
    (pyStrip (optStr e.status) == "ACCEPTED") &&
    (pyStrip (optStr e.matchType) == "EXACT")) ||
  (pyContains "sp." e.proposed_name &&
    (pyStrip (optStr e.status) == "ACCEPTED") &&
    (pyStrip (optStr e.rank) == "GENUS") &&
    decide (90 < optConf e.confidence))

/-- Counterexample for C6 as stated: `Crispum` does not contain the
literal `sp.` (and is a single token), yet the implemented genus-level
case uses the regular expression `sp.` — which matches the `spu` inside
`Crispum` — so the record is marked consistent although none of the
claim's three cases holds. -/
theorem acceptance_mask_counterexample :
    isConsistent
        { index := 0, process_id := "P1", proposed_name := "Crispum",
          status := some "ACCEPTED", rank := some "GENUS",
          confidence := some 91, matchType := some "NONE" } = true ∧
    claimedConsistentLiteral
        { index := 0, process_id := "P1", proposed_name := "Crispum",
          status := some "ACCEPTED", rank := some "GENUS",
          confidence := some 91, matchType := some "NONE" } = false ∧
    pyContains "sp."
        ({ index := 0, process_id := "P1", proposed_name := "Crispum",
           status := some "ACCEPTED", rank := some "GENUS",
           confidence := some 91, matchType := some "NONE" }
          : ResultEntry).proposed_name = false := by
  decide

/-- Reduction of the description update for a non-`NOT_COLLECTED` entry
whose prior description is not `nan`-like: the chosen key's URL is
appended and the result stripped. -/
theorem mergeDescription_reduce (e : ResultEntry) (k : Nat) (cur : String)
    (hst : optEqStr e.status "NOT_COLLECTED" = false)
    (hnan : (pyLower cur == "nan") = false)
    (hcase : (pyContains "sp." e.proposed_name = true ∧ e.genusKey = some k) ∨
      (pyContains "sp." e.proposed_name = false ∧ e.usageKey = some k)) :
    mergeDescription cur e = pyStrip (cur ++ " " ++ gbifUrl k) := by
  unfold mergeDescription
  rw [hst]
  rcases hcase with ⟨hsp, hk⟩ | ⟨hsp, hk⟩ <;> simp [hsp, hk, hnan]

/-- Reduction of the description update when the prior description is the
literal `nan`: it is treated as empty. -/
theorem mergeDescription_reduce_nan (e : ResultEntry) (k : Nat)
    (hst : optEqStr e.status "NOT_COLLECTED" = false)
    (hcase : (pyContains "sp." e.proposed_name = true ∧ e.genusKey = some k) ∨
      (pyContains "sp." e.proposed_name = false ∧ e.usageKey = some k)) :
    mergeDescription "nan" e = pyStrip (" " ++ gbifUrl k) := by
  unfold mergeDescription
  rw [hst]
  rcases hcase with ⟨hsp, hk⟩ | ⟨hsp, hk⟩ <;>
    simp [hsp, hk, show (pyLower "nan" == "nan") = true from rfl,
      show (("" : String) ++ " ") = " " from rfl]

/-- C8: for a resolved, non-not-collected record the merger appends — never
replaces — the URL reference: the genus key is used when the text contains
the literal `sp.` and the usage key otherwise; a prior description that is
`NaN` (stringified to `nan` by the dataframe) or the literal `nan` is
treated as empty, so the merge yields exactly the reference with no
leading whitespace; and a well-formed nonempty prior description is kept
verbatim as a prefix, the reference being appended after a space. -/
theorem merge_key_selection (e : ResultEntry) (k : Nat)
    (hst : optEqStr e.status "NOT_COLLECTED" = false) :
    (pyContains "sp." e.proposed_name = true → e.genusKey = some k →
      mergeDescription "nan" e = gbifUrl k ∧ mergeDescription "" e = gbifUrl k) ∧
    (pyContains "sp." e.proposed_name = false → e.usageKey = some k →
      mergeDescription "nan" e = gbifUrl k ∧ mergeDescription "" e = gbifUrl k) ∧
    (∀ (cur : String) (c0 : Char) (t : List Char),
      cur.data = c0 :: t → isWS c0 = false → (pyLower cur == "nan") = false →
      ((pyContains "sp." e.proposed_name = true ∧ e.genusKey = some k) ∨
        (pyContains "sp." e.proposed_name = false ∧ e.usageKey = some k)) →
      mergeDescription cur e = cur ++ " " ++ gbifUrl k) := by
  have hempty : ("" : String) ++ " " = " " := rfl
  refine ⟨fun hsp hk => ⟨?_, ?_⟩, fun hsp hk => ⟨?_, ?_⟩, ?_⟩
  · rw [mergeDescription_reduce_nan e k hst (Or.inl ⟨hsp, hk⟩)]
    exact pyStrip_space_url k
  · rw [mergeDescription_reduce e k "" hst rfl (Or.inl ⟨hsp, hk⟩),
      show ("" : String) ++ " " ++ gbifUrl k = " " ++ gbifUrl k from rfl]
    exact pyStrip_space_url k
  · rw [mergeDescription_reduce_nan e k hst (Or.inr ⟨hsp, hk⟩)]
    exact pyStrip_space_url k
  · rw [mergeDescription_reduce e k "" hst rfl (Or.inr ⟨hsp, hk⟩),
      show ("" : String) ++ " " ++ gbifUrl k = " " ++ gbifUrl k from rfl]
    exact pyStrip_space_url k
  · intro cur c0 t hdat h0 hnan hcase
    rw [mergeDescription_reduce e k cur hst hnan hcase]
    exact pyStrip_desc_append cur c0 t hdat h0 k

/-- Witness for C8: a genus-level match appends the genus-key URL to a
`nan` description with no leading whitespace, and appends after a space to
a nonempty prior description. -/
theorem merge_key_selection_witness :
    mergeDescription "nan"
        { index := 0, process_id := "P1", proposed_name := "Apis sp. X1",
          status := some "ACCEPTED", genusKey := some 7 } = gbifUrl 7 ∧
    mergeDescription "prior"
        { index := 0, process_id := "P1", proposed_name := "Apis sp. X1",
          status := some "ACCEPTED", genusKey := some 7 }
      = "prior" ++ " " ++ gbifUrl 7 := by
  have h := merge_key_selection
    { index := 0, process_id := "P1", proposed_name := "Apis sp. X1",
      status := some "ACCEPTED", genusKey := some 7 } 7 rfl
  exact ⟨(h.1 rfl rfl).1,
    h.2.2 "prior" 'p' ['r', 'i', 'o', 'r'] rfl (by decide) rfl (Or.inl ⟨rfl, rfl⟩)⟩

/-- A concrete consistent species-level entry, parametrized by its usage
key, used to examine the merge step. -/
def c9Entry (k : Nat) : ResultEntry :=
  { index := 0, process_id := "P1", proposed_name := "Aus bus",
    status := some "ACCEPTED", confidence := some 98,
    matchType := some "EXACT", usageKey := some k }

/-- C9 (amended): the description-merge step is not idempotent — applying
it a second time with the same outcomes appends the reference again
instead of leaving the description unchanged.  A single pipeline run
applies the update once per consistent record (and each run re-reads
pristine descriptions from the input file), which is why no duplication
occurs in practice. -/
theorem merge_not_idempotent (k : Nat) :
    isConsistent (c9Entry k) = true ∧
    applyMergeRow [c9Entry k] 0 "" = gbifUrl k ∧
    applyMergeRow [c9Entry k] 0 (applyMergeRow [c9Entry k] 0 "")
      = gbifUrl k ++ " " ++ gbifUrl k ∧
    applyMergeRow [c9Entry k] 0 (applyMergeRow [c9Entry k] 0 "")
      ≠ applyMergeRow [c9Entry k] 0 "" := by
  have hA : ∀ cur : String,
      applyMergeRow [c9Entry k] 0 cur = mergeDescription cur (c9Entry k) := by
    intro cur
    simp [applyMergeRow, c9Entry]
  have h1 : applyMergeRow [c9Entry k] 0 "" = gbifUrl k := by
    rw [hA "", mergeDescription_reduce (c9Entry k) k "" rfl rfl (Or.inr ⟨rfl, rfl⟩),
      show ("" : String) ++ " " ++ gbifUrl k = " " ++ gbifUrl k from rfl]
    exact pyStrip_space_url k
  have h2 : applyMergeRow [c9Entry k] 0 (gbifUrl k)
      = gbifUrl k ++ " " ++ gbifUrl k := by
    rw [hA (gbifUrl k),
      mergeDescription_reduce (c9Entry k) k (gbifUrl k) rfl
        (pyLower_gbifUrl_ne_nan k) (Or.inr ⟨rfl, rfl⟩)]
    obtain ⟨mid, d, hdata, hd⟩ := gbifUrl_data k
    exact pyStrip_desc_append (gbifUrl k) 'h' (mid ++ [d]) hdata (by decide) k
  have h3 : gbifUrl k ++ " " ++ gbifUrl k ≠ gbifUrl k := by
    intro hcontr
    have hlen := congrArg (fun s : String => s.data.length) hcontr
    simp only [String.data_append, List.length_append,
      show (" " : String).data.length = 1 from rfl] at hlen
    omega
  refine ⟨rfl, h1, ?_, ?_⟩
  · rw [h1]
    exact h2
  · rw [h1, h2]
    exact h3

/-- Counterexample for C9 as stated: with usage key 5, applying the merge
step twice to the same record duplicates the appended reference, so the
second application does not equal the first. -/
theorem merge_idempotence_counterexample :
    applyMergeRow [c9Entry 5] 0 (applyMergeRow [c9Entry 5] 0 "")
      ≠ applyMergeRow [c9Entry 5] 0 "" := by
  decide

end EnaTax
